import Mathlib

/-!
Verification of `change_mdm.py`, an interactive CLI script that looks up an
Apple School Manager device by serial number and reassigns it to a
management server over a REST API.

The embedding models:
  * JSON values returned by the API (`Json`), with Python truthiness,
    `len`, indexing and `dict` access semantics;
  * Python string helpers `strip` / `upper` / `lower` and `int()` parsing
    (ASCII model);
  * the three HTTP operations as pure request constructors plus response
    handlers, with the network abstracted as an oracle
    `ApiCall → ReqOutcome`;
  * the JWT payload/header construction of `generate_jwt_token` (the
    actual ES256 signature is produced by the external PyJWT library and
    is outside the program; the key loading is modelled as an ambient
    valid token string);
  * `select_management_server` as a recursive function over the remaining
    stdin lines (an exhausted stdin corresponds to `input()` raising
    `EOFError`);
  * `main` as a function from configuration, stdin and the network oracle
    to a result (exit code or uncaught exception), the list of API calls
    made, and the printed output lines.
-/

/-- JSON values as delivered by the API (`response.json()`). -/
inductive Json where
  | null
  | bool (b : Bool)
  | num (n : Int)
  | str (s : String)
  | arr (elems : List Json)
  | obj (fields : List (String × Json))

/-- First-match lookup in an association list, modelling Python `dict`
access (keys are unique in a Python dict, so first-match is exact). -/
def lookupField : List (String × Json) → String → Option Json
  | [], _ => none
  | (k, v) :: rest, key => if k = key then some v else lookupField rest key

/-- Python truthiness of a JSON value (`if x:`). -/
def pyTruthy : Json → Bool
  | .null => false
  | .bool b => b
  | .num n => n != 0
  | .str s => s != ""
  | .arr xs => !xs.isEmpty
  | .obj fs => !fs.isEmpty

/-- Python `len()`: defined for strings, lists and dicts; `none` models the
`TypeError` raised on other values. -/
def pyLen : Json → Option Nat
  | .str s => some s.length
  | .arr xs => some xs.length
  | .obj fs => some fs.length
  | _ => none

/-- Python subscription `x[0]`: head of a list, first character of a
string; `KeyError` on a dict without key `0`, `TypeError` otherwise. -/
def pyIndexZero : Json → Except String Json
  | .arr (x :: _) => .ok x
  | .arr [] => .error "IndexError"
  | .str s => if s.length = 0 then .error "IndexError" else .ok (.str (String.singleton s.front))
  | .obj _ => .error "KeyError: 0"
  | _ => .error "TypeError: not subscriptable"

/-- Python subscription `d[key]` with a string key: `KeyError` when the key
is missing, `TypeError` when the value is not a dict. -/
def pyGetItem : Json → String → Except String Json
  | .obj fields, key =>
    match lookupField fields key with
    | some v => .ok v
    | none => .error ("KeyError: " ++ key)
  | _, _ => .error "TypeError: not subscriptable"

/-- Python `d.get(key, default)`: `AttributeError` when the value is not a
dict. -/
def pyGetDefault : Json → String → Json → Except String Json
  | .obj fields, key, dflt => .ok ((lookupField fields key).getD dflt)
  | _, _, _ => .error "AttributeError: no attribute get"

/-- Python `str()` of a JSON value, as used in f-strings. Container
rendering is abbreviated; the program only ever formats scalar values
(ids, model names, server ids). -/
def pyStr : Json → String
  | .null => "None"
  | .bool true => "True"
  | .bool false => "False"
  | .num n => toString n
  | .str s => s
  | .arr _ => "<list>"
  | .obj _ => "<dict>"

/-- The ASCII whitespace characters removed by Python `str.strip()`. -/
def isPySpace (c : Char) : Bool :=
  c = ' ' || c = '\t' || c = '\n' || c = '\r' || c = '\x0b' || c = '\x0c'

/-- Python `str.strip()` (ASCII model). -/
def pyStrip (s : String) : String :=
  String.mk (((s.data.dropWhile isPySpace).reverse.dropWhile isPySpace).reverse)

/-- Python `str.upper()` (ASCII model). -/
def pyUpper (s : String) : String := String.mk (s.data.map Char.toUpper)

/-- Python `str.lower()` (ASCII model). -/
def pyLower (s : String) : String := String.mk (s.data.map Char.toLower)

/-- Digit run with optional single underscores between digits, as accepted
by Python `int()` (e.g. `int("1_0") = 10`). The Bool argument records
whether the previous character was a digit (an underscore must be
surrounded by digits, and the run must end in a digit). -/
def digitsUAux : Nat → Bool → List Char → Option Nat
  | acc, lastDigit, [] => if lastDigit then some acc else none
  | acc, lastDigit, c :: cs =>
    if c.isDigit then digitsUAux (10 * acc + (c.toNat - 48)) true cs
    else if c = '_' then
      if lastDigit then digitsUAux acc false cs else none
    else none

/-- Python `int(s)` over a string: optional surrounding whitespace,
optional sign, then digits with optional single underscores. `none`
models `ValueError`. -/
def pyInt (s : String) : Option Int :=
  match (pyStrip s).data with
  | '+' :: rest => (digitsUAux 0 false rest).map Int.ofNat
  | '-' :: rest => (digitsUAux 0 false rest).map (fun n => -(Int.ofNat n))
  | rest => (digitsUAux 0 false rest).map Int.ofNat

/-- `not x` on an optional environment string: `os.getenv` returns `None`
when unset, and both `None` and the empty string are falsy. -/
def pyFalsyOptStr : Option String → Bool
  | none => true
  | some s => s == ""

/-! ## Configuration constants of the script -/

def ASM_API_BASE_URL : String := "https://api-school.apple.com/v1"

/-- The static management-server mapping (`MDM_SERVERS` in the script),
display name to server id. -/
def MDM_SERVERS : List (String × String) :=
  [("Mosyle Macs", "UDID_GOES_HERE"), ("Mosyle iPads", "UDID_GOES_HERE")]

/-- `servers = list(MDM_SERVERS.keys())`. -/
def serverNames : List String := MDM_SERVERS.map Prod.fst

/-- First-match lookup in the server mapping (`MDM_SERVERS[name]`). -/
def lookupServer : List (String × String) → String → Option String
  | [], _ => none
  | (k, v) :: rest, key => if k = key then some v else lookupServer rest key

/-! ## Token issuance (`generate_jwt_token`) -/

/-- JWT payload built by `generate_jwt_token`. Times are in seconds. -/
structure JwtPayload where
  iss : String
  iat : Nat
  exp : Nat
  aud : String
deriving Repr, DecidableEq

/-- JWT header built by `generate_jwt_token`. -/
structure JwtHeader where
  kid : String
  alg : String
deriving Repr, DecidableEq

def jwtAudience : String := "https://account.apple.com/auth/oauth2/v2/token"

/-- The payload and header handed to `jwt.encode` by `generate_jwt_token`,
as functions of the issuer id, the key id and the current time `now`
(seconds). `timedelta(minutes=20)` is 20 * 60 seconds. The ES256
signature itself is produced by the external PyJWT library. -/
def generate_jwt_token (issuerId keyId : String) (now : Nat) : JwtPayload × JwtHeader :=
  ({ iss := issuerId, iat := now, exp := now + 20 * 60, aud := jwtAudience },
   { kid := keyId, alg := "ES256" })

/-- `get_auth_headers()`: bearer token plus content-type headers. The
token string stands for the freshly minted signed JWT. -/
def get_auth_headers (token : String) : List (String × String) :=
  [("Authorization", "Bearer " ++ token),
   ("Content-Type", "application/json"),
   ("Accept", "application/json")]

/-! ## The API client -/

/-- An outgoing HTTP request. -/
inductive ApiCall where
  | get (url : String) (params : List (String × String)) (headers : List (String × String))
  | patch (url : String) (body : Json) (headers : List (String × String))

/-- Whether a call is a PATCH (an assignment call). -/
def ApiCall.isPatch : ApiCall → Bool
  | .patch _ _ _ => true
  | .get _ _ _ => false

/-- The outcome of one HTTP request: either the transport raises a
`requests.exceptions.RequestException` (`netError`), or a response with a
status code and a JSON body arrives. -/
inductive ReqOutcome where
  | netError (msg : String)
  | response (status : Nat) (body : Json)

/-- The GET request issued by `search_device_by_serial`. -/
def searchRequest (token serial : String) : ApiCall :=
  .get (ASM_API_BASE_URL ++ "/devices")
       [("filter[serialNumber]", serial)]
       (get_auth_headers token)

/-- Body handling of `search_device_by_serial` after a non-error status:
`data.get("data")`, truthiness, `len`, and `[0]`. Non-dict bodies raise
(`AttributeError` on `.get`), and the `try` only catches
`RequestException`, so those surface as crashes. -/
def searchBody : Json → Except String (Option Json)
  | .obj fields =>
    match lookupField fields "data" with
    | some d =>
      if pyTruthy d then
        match pyLen d with
        | some n => if 0 < n then (pyIndexZero d).map some else .ok none
        | none => .error "TypeError: object has no len"
      else .ok none
    | none => .ok none
  | _ => .error "AttributeError: no attribute get"

/-- Response handling of `search_device_by_serial`: a transport error or a
`raise_for_status` failure (a 4xx or 5xx status) is caught, logged and
converted to `None`; otherwise the body is inspected. Returns the result
together with the lines printed (the logged line models the exception
text). -/
def searchHandle : ReqOutcome → Except String (Option Json) × List String
  | .netError msg => (.ok none, ["Error searching for device: " ++ msg])
  | .response status body =>
    if 400 ≤ status ∧ status < 600 then
      (.ok none, ["Error searching for device: HTTP status " ++ toString status])
    else (searchBody body, [])

/-- `search_device_by_serial(serial)`: issues the GET and handles the
outcome the oracle assigns to it. -/
def search_device_by_serial (token serial : String) (oracle : ApiCall → ReqOutcome) :
    Except String (Option Json) × List String :=
  searchHandle (oracle (searchRequest token serial))

/-- The JSON:API body built by `assign_device_to_server`. -/
def assignPayload (deviceId : Json) (serverId : String) : Json :=
  .obj [("data", .obj
    [("type", .str "devices"),
     ("id", deviceId),
     ("attributes", .obj [("deviceManagementServerId", .str serverId)])])]

/-- The PATCH request issued by `assign_device_to_server`. -/
def patchRequest (token : String) (deviceId : Json) (serverId : String) : ApiCall :=
  .patch (ASM_API_BASE_URL ++ "/devices/" ++ pyStr deviceId)
         (assignPayload deviceId serverId)
         (get_auth_headers token)

/-- Response handling of `assign_device_to_server`: any transport error or
4xx/5xx status is caught, logged and converted to `None`; otherwise the
parsed body is returned. -/
def assignHandle : ReqOutcome → Option Json × List String
  | .netError msg => (none, ["Error assigning device: " ++ msg])
  | .response status body =>
    if 400 ≤ status ∧ status < 600 then
      (none, ["Error assigning device: HTTP status " ++ toString status])
    else (some body, [])

/-- `assign_device_to_server(device_id, server_id)`. -/
def assign_device_to_server (token : String) (deviceId : Json) (serverId : String)
    (oracle : ApiCall → ReqOutcome) : Option Json × List String :=
  assignHandle (oracle (patchRequest token deviceId serverId))

/-! ## The selection menu (`select_management_server`) -/

/-- The menu prompt printed each loop iteration. -/
def selectPrompt : String := "Select server (1-" ++ toString serverNames.length ++ "): "

/-- The `while True` input loop of `select_management_server` over the
remaining stdin lines. Returns the selection, the unconsumed stdin, and
the printed lines; `none` models `input()` raising `EOFError` on an
exhausted stdin. An invalid or out-of-range entry prints a hint and
loops. -/
def selectLoop : List String → Option ((String × String) × List String) × List String
  | [] => (none, [selectPrompt])
  | choice :: rest =>
    match pyInt (pyStrip choice) with
    | some n =>
      if 1 ≤ n ∧ n ≤ (serverNames.length : Int) then
        let selected := serverNames.getD (n - 1).toNat ""
        ((some ((selected, (lookupServer MDM_SERVERS selected).getD ""), rest)), [selectPrompt])
      else
        let r := selectLoop rest
        (r.1, selectPrompt ::
          ("Please enter a number between 1 and " ++ toString serverNames.length) :: r.2)
    | none =>
      let r := selectLoop rest
      (r.1, selectPrompt :: "Please enter a valid number" :: r.2)

/-- The numbered menu header printed before the loop. -/
def menuHeader : List String :=
  "Available Management Servers:" ::
    serverNames.enum.map (fun p => toString (p.1 + 1) ++ ". " ++ p.2)

/-- `select_management_server()`: print the menu, then loop on input. -/
def select_management_server (stdin : List String) :
    Option ((String × String) × List String) × List String :=
  let r := selectLoop stdin
  (r.1, menuHeader ++ r.2)

/-! ## The controller (`main`) -/

/-- How a run ends: `sys.exit(code)` / normal return, or an uncaught
exception. -/
inductive RunResult where
  | exited (code : Nat)
  | crashed (msg : String)
deriving Repr, DecidableEq

/-- Observable outcome of a run: how it ended, the API calls it made (in
order), and the lines it printed. -/
structure MainOutcome where
  result : RunResult
  calls : List ApiCall
  output : List String

def confirmPrompt (serial serverName : String) : String :=
  "Assign device " ++ serial ++ " to " ++ serverName ++ "? (y/N): "

def assignFailMsg : String := "❌ Failed to assign device to management server"

/-- The part of `main` after a device was found and judged truthy: display
the device, run the menu, confirm, and PATCH. Returns the result, the API
calls made in this part, and the lines printed in this part. -/
def mainPostSearch (token serial : String) (device : Json) (stdin1 : List String)
    (oracle : ApiCall → ReqOutcome) : RunResult × List ApiCall × List String :=
  match pyGetItem device "id" with
  | .error e => (.crashed e, [], [])
  | .ok deviceId =>
    match pyGetItem device "attributes" with
    | .error e => (.crashed e, [], [])
    | .ok attrs =>
      match pyGetDefault attrs "model" (.str "Unknown") with
      | .error e => (.crashed e, [], [])
      | .ok deviceModel =>
        match pyGetDefault attrs "deviceManagementServerId" (.str "Unassigned") with
        | .error e => (.crashed e, [], [])
        | .ok currentServer =>
          let infoOut := ["Device found:",
            "  ID: " ++ pyStr deviceId,
            "  Model: " ++ pyStr deviceModel,
            "  Current Server ID: " ++ pyStr currentServer]
          let sel := select_management_server stdin1
          match sel.1 with
          | none => (.crashed "EOFError", [], infoOut ++ sel.2)
          | some ((serverName, serverId), stdin2) =>
            let out4 := infoOut ++ sel.2 ++
              ["Selected: " ++ serverName ++ " (ID: " ++ serverId ++ ")"]
            match stdin2 with
            | [] => (.crashed "EOFError", [], out4 ++ [confirmPrompt serial serverName])
            | rawConfirm :: _ =>
              let out5 := out4 ++ [confirmPrompt serial serverName]
              if pyLower (pyStrip rawConfirm) ≠ "y" then
                (.exited 0, [], out5 ++ ["Operation cancelled"])
              else
                let out6 := out5 ++ ["Assigning device to " ++ serverName ++ "..."]
                let preq := patchRequest token deviceId serverId
                let ra := assignHandle (oracle preq)
                match ra.1 with
                | some r =>
                  if pyTruthy r then
                    (.exited 0, [preq], out6 ++ ra.2 ++
                      ["✅ Device successfully assigned to new management server!",
                       "Device " ++ serial ++ " is now assigned to " ++ serverName])
                  else (.exited 1, [preq], out6 ++ ra.2 ++ [assignFailMsg])
                | none => (.exited 1, [preq], out6 ++ ra.2 ++ [assignFailMsg])

def mainBanner : List String :=
  ["Apple School Manager Device Management Script",
   String.mk (List.replicate 50 '=')]

def serialPrompt : String := "Enter device serial number: "

/-- `main()`: environment check, serial prompt, search, then
`mainPostSearch`. `keyId` and `issuerId` are the `ASM_KEY_ID` /
`ASM_ISSUER_ID` environment variables; `token` stands for the signed JWT
(the source mints one per call; its value never influences control flow);
`stdin` is the sequence of operator input lines; `oracle` assigns an
outcome to each HTTP request. -/
def mainRun (keyId issuerId : Option String) (token : String) (stdin : List String)
    (oracle : ApiCall → ReqOutcome) : MainOutcome :=
  if pyFalsyOptStr keyId then
    { result := .exited 1, calls := [],
      output := mainBanner ++
        ["Error: ASM_KEY_ID environment variable not set",
         "Please set it to your Apple School Manager API Key ID"] }
  else if pyFalsyOptStr issuerId then
    { result := .exited 1, calls := [],
      output := mainBanner ++
        ["Error: ASM_ISSUER_ID environment variable not set",
         "Please set it to your Apple School Manager Issuer ID"] }
  else
    match stdin with
    | [] =>
      { result := .crashed "EOFError", calls := [], output := mainBanner ++ [serialPrompt] }
    | rawSerial :: stdin1 =>
      let serial := pyUpper (pyStrip rawSerial)
      if serial = "" then
        { result := .exited 1, calls := [],
          output := mainBanner ++ [serialPrompt, "Error: Serial number cannot be empty"] }
      else
        let out2 := mainBanner ++ [serialPrompt,
          "Searching for device with serial number: " ++ serial]
        let req := searchRequest token serial
        let rs := searchHandle (oracle req)
        match rs.1 with
        | .error e => { result := .crashed e, calls := [req], output := out2 ++ rs.2 }
        | .ok none =>
          { result := .exited 1, calls := [req],
            output := out2 ++ rs.2 ++
              ["Error: Device with serial number " ++ serial ++ " not found"] }
        | .ok (some device) =>
          if pyTruthy device then
            let post := mainPostSearch token serial device stdin1 oracle
            { result := post.1, calls := req :: post.2.1,
              output := out2 ++ rs.2 ++ post.2.2 }
          else
            { result := .exited 1, calls := [req],
              output := out2 ++ rs.2 ++
                ["Error: Device with serial number " ++ serial ++ " not found"] }

/-! ## Shared helper lemmas and demonstration inputs -/

/-- A successful key lookup means the field list is non-empty, hence the
dict is truthy. -/
lemma lookupField_isEmpty_false {fs : List (String × Json)} {key : String} {v : Json}
    (h : lookupField fs key = some v) : fs.isEmpty = false := by
  cases fs with
  | nil => simp [lookupField] at h
  | cons a rest => rfl

/-- A device record as the API returns it on the happy path. -/
def demoDevice : Json :=
  .obj [("id", .str "1001"),
        ("attributes", .obj [("model", .str "MacBook"),
                             ("deviceManagementServerId", .str "OLD")])]

/-- An oracle under which the search finds `demoDevice` and the PATCH
succeeds with a truthy body. -/
def demoOracle : ApiCall → ReqOutcome := fun c =>
  match c with
  | .get _ _ _ => .response 200 (.obj [("data", .arr [demoDevice])])
  | .patch _ _ _ => .response 200 (.obj [("data", .str "ok")])

/-- An oracle under which the search finds `demoDevice` but the PATCH,
though it succeeds at the HTTP level, returns a falsy body (an empty JSON
object). -/
def demoOracleFalsyPatch : ApiCall → ReqOutcome := fun c =>
  match c with
  | .get _ _ _ => .response 200 (.obj [("data", .arr [demoDevice])])
  | .patch _ _ _ => .response 200 (.obj [])

/-- An oracle whose every request fails at the transport level. -/
def demoOracleNetFail : ApiCall → ReqOutcome := fun _ => .netError "connection refused"

/-- An oracle whose every request returns HTTP 500. -/
def demoOracleHttp500 : ApiCall → ReqOutcome := fun _ => .response 500 Json.null

/-- An oracle whose every request returns 200 with an empty result set. -/
def demoOracleEmpty : ApiCall → ReqOutcome := fun _ =>
  .response 200 (.obj [("data", .arr [])])

/-! ## Claims -/

/-- Claim C2: every token issuance from loaded Credentials produces a
payload asserting the issuer identifier, an issued-at timestamp, an expiry
exactly 20 minutes (1200 seconds) after the issued-at, and the fixed
audience value, and a header carrying algorithm ES256 and the key
identifier. -/
theorem claim_C2_token_contents (issuerId keyId : String) (now : Nat) :
    (generate_jwt_token issuerId keyId now).1.iss = issuerId ∧
    (generate_jwt_token issuerId keyId now).1.iat = now ∧
    (generate_jwt_token issuerId keyId now).1.exp =
      (generate_jwt_token issuerId keyId now).1.iat + 20 * 60 ∧
    (generate_jwt_token issuerId keyId now).1.aud = jwtAudience ∧
    (generate_jwt_token issuerId keyId now).2.alg = "ES256" ∧
    (generate_jwt_token issuerId keyId now).2.kid = keyId :=
  ⟨rfl, rfl, rfl, rfl, rfl, rfl⟩

/-- Claim C1: `search_device_by_serial` issues a GET with a serial-number
filter; a non-error response with records yields the first record (`none`
for an empty result set), and any transport or HTTP-status error is
caught, logged, and surfaces as `none` instead of propagating. -/
theorem claim_C1_search_device (token serial : String) (oracle : ApiCall → ReqOutcome)
    (records : List Json) (status : Nat) (msg : String) :
    searchRequest token serial =
      ApiCall.get (ASM_API_BASE_URL ++ "/devices")
        [("filter[serialNumber]", serial)] (get_auth_headers token) ∧
    (oracle (searchRequest token serial) =
        ReqOutcome.response status (.obj [("data", .arr records)]) →
      status < 400 →
      search_device_by_serial token serial oracle = (.ok records.head?, [])) ∧
    (oracle (searchRequest token serial) = ReqOutcome.netError msg →
      search_device_by_serial token serial oracle =
        (.ok none, ["Error searching for device: " ++ msg])) ∧
    (∀ body, oracle (searchRequest token serial) = ReqOutcome.response status body →
      400 ≤ status → status < 600 →
      search_device_by_serial token serial oracle =
        (.ok none, ["Error searching for device: HTTP status " ++ toString status])) := by
  refine ⟨rfl, ?_, ?_, ?_⟩
  · intro h hlt
    rw [search_device_by_serial, h]
    rw [searchHandle, if_neg (by omega)]
    cases records with
    | nil => simp [searchBody, lookupField, pyTruthy]
    | cons x xs => simp [searchBody, lookupField, pyTruthy, pyLen, pyIndexZero, Except.map]
  · intro h
    rw [search_device_by_serial, h]
    rfl
  · intro body h hge hlt6
    rw [search_device_by_serial, h]
    rw [searchHandle, if_pos (And.intro hge hlt6)]

/-- Witness for C1: concrete instances of the found, transport-error and
HTTP-error cases. -/
theorem claim_C1_search_device_witness :
    search_device_by_serial "tok" "SER1" demoOracle = (.ok (some demoDevice), []) ∧
    search_device_by_serial "tok" "SER1" demoOracleNetFail =
      (.ok none, ["Error searching for device: connection refused"]) ∧
    search_device_by_serial "tok" "SER1" demoOracleHttp500 =
      (.ok none, ["Error searching for device: HTTP status 500"]) := by
  refine ⟨?_, ?_, ?_⟩
  · have h := (claim_C1_search_device "tok" "SER1" demoOracle [demoDevice] 200 "").2.1
      rfl (by omega)
    simpa using h
  · exact (claim_C1_search_device "tok" "SER1" demoOracleNetFail [] 200
      "connection refused").2.2.1 rfl
  · have h := (claim_C1_search_device "tok" "SER1" demoOracleHttp500 [] 500 "").2.2.2
      Json.null rfl (by omega) (by omega)
    simpa using h

/-- Claim C4: `assign_device_to_server` sends a PATCH to the device
endpoint with exactly the JSON:API body setting the management-server
attribute and a bearer authorization header; the parsed response body is
returned on success and `none` on any transport or HTTP-status error. -/
theorem claim_C4_assign (token : String) (deviceId : Json) (serverId : String)
    (oracle : ApiCall → ReqOutcome) (status : Nat) (body : Json) (msg : String) :
    patchRequest token deviceId serverId =
      ApiCall.patch (ASM_API_BASE_URL ++ "/devices/" ++ pyStr deviceId)
        (Json.obj [("data", Json.obj
          [("type", Json.str "devices"),
           ("id", deviceId),
           ("attributes", Json.obj [("deviceManagementServerId", Json.str serverId)])])])
        [("Authorization", "Bearer " ++ token),
         ("Content-Type", "application/json"),
         ("Accept", "application/json")] ∧
    (oracle (patchRequest token deviceId serverId) = ReqOutcome.response status body →
      status < 400 →
      (assign_device_to_server token deviceId serverId oracle).1 = some body) ∧
    (oracle (patchRequest token deviceId serverId) = ReqOutcome.netError msg →
      (assign_device_to_server token deviceId serverId oracle).1 = none) ∧
    (oracle (patchRequest token deviceId serverId) = ReqOutcome.response status body →
      400 ≤ status → status < 600 →
      (assign_device_to_server token deviceId serverId oracle).1 = none) := by
  refine ⟨rfl, ?_, ?_, ?_⟩
  · intro h hlt
    rw [assign_device_to_server, h, assignHandle, if_neg (by omega)]
  · intro h
    rw [assign_device_to_server, h]
    rfl
  · intro h hge hlt6
    rw [assign_device_to_server, h, assignHandle, if_pos (And.intro hge hlt6)]

/-- Witness for C4: concrete success, transport-error and HTTP-error
instances. -/
theorem claim_C4_assign_witness :
    (assign_device_to_server "tok" (.str "1001") "SRV" demoOracle).1 =
      some (.obj [("data", .str "ok")]) ∧
    (assign_device_to_server "tok" (.str "1001") "SRV" demoOracleNetFail).1 = none ∧
    (assign_device_to_server "tok" (.str "1001") "SRV" demoOracleHttp500).1 = none := by
  refine ⟨?_, ?_, ?_⟩
  · exact (claim_C4_assign "tok" (.str "1001") "SRV" demoOracle 200
      (.obj [("data", .str "ok")]) "").2.1 rfl (by omega)
  · exact (claim_C4_assign "tok" (.str "1001") "SRV" demoOracleNetFail 200
      Json.null "connection refused").2.2.1 rfl
  · exact (claim_C4_assign "tok" (.str "1001") "SRV" demoOracleHttp500 500
      Json.null "").2.2.2 rfl (by omega) (by omega)

/-- Soundness of the selection loop: whatever it returns is a key of the
server mapping paired with that key's value. -/
lemma selectLoop_sound (inputs : List String) :
    ∀ name sid rest2, (selectLoop inputs).1 = some ((name, sid), rest2) →
      lookupServer MDM_SERVERS name = some sid ∧ name ∈ serverNames := by
  induction inputs with
  | nil => intro name sid rest2 h; simp [selectLoop] at h
  | cons c rest ih =>
    intro name sid rest2 h
    simp only [selectLoop] at h
    cases hp : pyInt (pyStrip c) with
    | none =>
      rw [hp] at h
      exact ih name sid rest2 h
    | some n =>
      simp only [hp] at h
      by_cases hr : 1 ≤ n ∧ n ≤ (serverNames.length : Int)
      · rw [if_pos hr] at h
        simp only [Option.some.injEq, Prod.mk.injEq] at h
        obtain ⟨⟨hname, hsid⟩, -⟩ := h
        obtain ⟨h1, h2⟩ := hr
        have hlen : (serverNames.length : Int) = 2 := by decide
        rw [hlen] at h2
        have hn : n = 1 ∨ n = 2 := by omega
        rcases hn with hn | hn <;> subst hn <;> subst hname <;> subst hsid <;> exact ⟨by decide, by decide⟩
      · rw [if_neg hr] at h
        exact ih name sid rest2 h

/-- Claim C7: the server-selection loop returns exactly when the entry
parses as an integer in [1, N] (N the size of the static mapping), in
which case it yields the selected display name paired with that name's
server id from the mapping; any other entry makes it re-prompt on the
remaining input instead of terminating. -/
theorem claim_C7_menu_loop (c : String) (rest : List String) (n : Int) :
    (pyInt (pyStrip c) = some n → 1 ≤ n → n ≤ (serverNames.length : Int) →
      (select_management_server (c :: rest)).1 =
        some ((serverNames.getD (n - 1).toNat "",
          (lookupServer MDM_SERVERS (serverNames.getD (n - 1).toNat "")).getD ""), rest)) ∧
    (pyInt (pyStrip c) = none →
      (select_management_server (c :: rest)).1 = (select_management_server rest).1) ∧
    (pyInt (pyStrip c) = some n → ¬(1 ≤ n ∧ n ≤ (serverNames.length : Int)) →
      (select_management_server (c :: rest)).1 = (select_management_server rest).1) ∧
    (∀ inputs name sid rest2,
      (select_management_server inputs).1 = some ((name, sid), rest2) →
      lookupServer MDM_SERVERS name = some sid ∧ name ∈ serverNames) := by
  refine ⟨?_, ?_, ?_, ?_⟩
  · intro hp h1 h2
    simp only [select_management_server, selectLoop, hp, if_pos (And.intro h1 h2)]
  · intro hp
    simp only [select_management_server, selectLoop, hp]
  · intro hp hr
    simp only [select_management_server, selectLoop, hp, if_neg hr]
  · intro inputs name sid rest2 h
    exact selectLoop_sound inputs name sid rest2 h

/-- Witness for C7: the inputs "abc" and "5" re-prompt, "2" selects the
second server, and the returned pair is sound for the mapping. -/
theorem claim_C7_menu_loop_witness :
    (select_management_server ["abc", "5", "2"]).1 =
      some (("Mosyle iPads", "UDID_GOES_HERE"), []) ∧
    lookupServer MDM_SERVERS "Mosyle iPads" = some "UDID_GOES_HERE" ∧
    "Mosyle iPads" ∈ serverNames := by
  have h1 := (claim_C7_menu_loop "abc" ["5", "2"] 0).2.1 (by decide)
  have h2 := (claim_C7_menu_loop "5" ["2"] 5).2.2.1 (by decide) (by decide)
  have h3 := (claim_C7_menu_loop "2" [] 2).1 (by decide) (by decide) (by decide)
  have hsel : (select_management_server ["abc", "5", "2"]).1 =
      some (("Mosyle iPads", "UDID_GOES_HERE"), []) := by
    rw [h1, h2, h3]
    decide
  have hsound := (claim_C7_menu_loop "2" [] 2).2.2.2 ["abc", "5", "2"]
    "Mosyle iPads" "UDID_GOES_HERE" [] hsel
  exact ⟨hsel, hsound.1, hsound.2⟩

/-- A run whose first input line normalizes to the empty serial exits 1
before any network call. Shared between the explicit empty-serial claim
and the normalization claim. -/
lemma mainRun_empty_serial (keyId issuerId : Option String) (token raw : String)
    (rest : List String) (oracle : ApiCall → ReqOutcome)
    (hk : pyFalsyOptStr keyId = false) (hi : pyFalsyOptStr issuerId = false)
    (hempty : pyUpper (pyStrip raw) = "") :
    mainRun keyId issuerId token (raw :: rest) oracle =
      { result := .exited 1, calls := [],
        output := mainBanner ++ [serialPrompt, "Error: Serial number cannot be empty"] } := by
  simp [mainRun, hk, hi, hempty]

/-- Whenever the serial normalizes to a non-empty string, the first (and
possibly only) API call of the run is the GET with the normalized serial,
whatever the oracle and the remaining input do. -/
lemma mainRun_first_call (keyId issuerId : Option String) (token raw : String)
    (rest : List String) (oracle : ApiCall → ReqOutcome)
    (hk : pyFalsyOptStr keyId = false) (hi : pyFalsyOptStr issuerId = false)
    (hserial : pyUpper (pyStrip raw) ≠ "") :
    (mainRun keyId issuerId token (raw :: rest) oracle).calls.head? =
      some (searchRequest token (pyUpper (pyStrip raw))) := by
  simp only [mainRun, hk, hi, Bool.false_eq_true, if_false, if_neg hserial]
  rcases h1 : (searchHandle (oracle (searchRequest token (pyUpper (pyStrip raw))))).1 with e | devOpt
  · simp [h1]
  · rcases devOpt with _ | device
    · simp [h1]
    · by_cases hd : pyTruthy device <;> simp [h1, hd]

/-- Claim C5: an empty serial-number input makes the run print an error
and exit 1 immediately, with no network call before that exit. -/
theorem claim_C5_empty_serial (keyId issuerId : Option String) (token : String)
    (rest : List String) (oracle : ApiCall → ReqOutcome)
    (hk : pyFalsyOptStr keyId = false) (hi : pyFalsyOptStr issuerId = false) :
    mainRun keyId issuerId token ("" :: rest) oracle =
      { result := .exited 1, calls := [],
        output := mainBanner ++ [serialPrompt, "Error: Serial number cannot be empty"] } :=
  mainRun_empty_serial keyId issuerId token "" rest oracle hk hi rfl

/-- Witness for C5. -/
theorem claim_C5_empty_serial_witness :
    mainRun (some "KID") (some "ISS") "tok" [""] demoOracle =
      { result := .exited 1, calls := [],
        output := mainBanner ++ [serialPrompt, "Error: Serial number cannot be empty"] } :=
  claim_C5_empty_serial (some "KID") (some "ISS") "tok" [] demoOracle rfl rfl

/-- Claim C6: when the device search comes back with no device, the run
exits 1 right after the not-found message, having made only the search
call and never reaching the selection menu. -/
theorem claim_C6_not_found (keyId issuerId : Option String) (token raw : String)
    (rest : List String) (oracle : ApiCall → ReqOutcome)
    (hk : pyFalsyOptStr keyId = false) (hi : pyFalsyOptStr issuerId = false)
    (hserial : pyUpper (pyStrip raw) ≠ "")
    (hsearch : (searchHandle (oracle (searchRequest token (pyUpper (pyStrip raw))))).1 =
      Except.ok none) :
    mainRun keyId issuerId token (raw :: rest) oracle =
      { result := .exited 1,
        calls := [searchRequest token (pyUpper (pyStrip raw))],
        output := mainBanner ++ [serialPrompt,
            "Searching for device with serial number: " ++ pyUpper (pyStrip raw)] ++
          (searchHandle (oracle (searchRequest token (pyUpper (pyStrip raw))))).2 ++
          ["Error: Device with serial number " ++ pyUpper (pyStrip raw) ++ " not found"] } := by
  simp [mainRun, hk, hi, hserial, hsearch]

/-- Witness for C6: a 200 response with an empty result set ends the run
at exit 1 without a menu or a PATCH. -/
theorem claim_C6_not_found_witness :
    mainRun (some "KID") (some "ISS") "tok" ["SER1"] demoOracleEmpty =
      { result := .exited 1,
        calls := [searchRequest "tok" "SER1"],
        output := mainBanner ++ [serialPrompt,
          "Searching for device with serial number: SER1",
          "Error: Device with serial number SER1 not found"] } := by
  have h := claim_C6_not_found (some "KID") (some "ISS") "tok" "SER1" [] demoOracleEmpty
    rfl rfl (by decide) rfl
  simpa [demoOracleEmpty, searchHandle, searchRequest] using h

/-- Claim C8: the search uses the whitespace-stripped, uppercased form of
the operator's input (a lowercase serial is looked up in uppercase), and
an input of only whitespace is treated as empty and exits 1 with no
network call. -/
theorem claim_C8_serial_normalization (keyId issuerId : Option String) (token raw : String)
    (rest : List String) (oracle : ApiCall → ReqOutcome)
    (hk : pyFalsyOptStr keyId = false) (hi : pyFalsyOptStr issuerId = false) :
    (pyUpper (pyStrip raw) ≠ "" →
      (mainRun keyId issuerId token (raw :: rest) oracle).calls.head? =
        some (searchRequest token (pyUpper (pyStrip raw)))) ∧
    (raw.data.all isPySpace = true →
      mainRun keyId issuerId token (raw :: rest) oracle =
        { result := .exited 1, calls := [],
          output := mainBanner ++ [serialPrompt, "Error: Serial number cannot be empty"] }) := by
  constructor
  · intro hserial
    exact mainRun_first_call keyId issuerId token raw rest oracle hk hi hserial
  · intro hspace
    apply mainRun_empty_serial keyId issuerId token raw rest oracle hk hi
    have hdrop : raw.data.dropWhile isPySpace = [] := by
      rw [List.dropWhile_eq_nil_iff]
      intro x hx
      exact List.all_eq_true.mp hspace x hx
    simp [pyUpper, pyStrip, hdrop]

/-- Witness for C8: a padded lowercase serial is searched uppercased, and
an all-whitespace entry exits 1 with no call. -/
theorem claim_C8_serial_normalization_witness :
    (mainRun (some "KID") (some "ISS") "tok" [" c02abc "] demoOracle).calls.head? =
      some (searchRequest "tok" "C02ABC") ∧
    mainRun (some "KID") (some "ISS") "tok" ["   "] demoOracle =
      { result := .exited 1, calls := [],
        output := mainBanner ++ [serialPrompt, "Error: Serial number cannot be empty"] } := by
  constructor
  · have h := (claim_C8_serial_normalization (some "KID") (some "ISS") "tok" " c02abc "
      [] demoOracle rfl rfl).1 (by decide)
    simpa [show pyUpper (pyStrip " c02abc ") = "C02ABC" from by decide] using h
  · exact (claim_C8_serial_normalization (some "KID") (some "ISS") "tok" "   "
      [] demoOracle rfl rfl).2 (by decide)

/-- Reduction of a run that finds a truthy device record: the run is the
search call followed by the post-search stage. -/
lemma mainRun_post (keyId issuerId : Option String) (token raw : String)
    (stdin1 : List String) (oracle : ApiCall → ReqOutcome) (dfields : List (String × Json))
    (hk : pyFalsyOptStr keyId = false) (hi : pyFalsyOptStr issuerId = false)
    (hserial : pyUpper (pyStrip raw) ≠ "")
    (hsearch : (searchHandle (oracle (searchRequest token (pyUpper (pyStrip raw))))).1 =
      Except.ok (some (Json.obj dfields)))
    (hne : dfields.isEmpty = false) :
    mainRun keyId issuerId token (raw :: stdin1) oracle =
      { result := (mainPostSearch token (pyUpper (pyStrip raw)) (Json.obj dfields) stdin1 oracle).1,
        calls := searchRequest token (pyUpper (pyStrip raw)) ::
          (mainPostSearch token (pyUpper (pyStrip raw)) (Json.obj dfields) stdin1 oracle).2.1,
        output := mainBanner ++ [serialPrompt,
            "Searching for device with serial number: " ++ pyUpper (pyStrip raw)] ++
          (searchHandle (oracle (searchRequest token (pyUpper (pyStrip raw))))).2 ++
          (mainPostSearch token (pyUpper (pyStrip raw)) (Json.obj dfields) stdin1 oracle).2.2 } := by
  simp [mainRun, hk, hi, hserial, hsearch, pyTruthy, hne]

/-- Reduction of the post-search stage when the record has `id` and
`attributes`, a selection is made, and the confirmation is refused. -/
lemma mainPostSearch_cancel (token serial : String) (stdin1 : List String)
    (oracle : ApiCall → ReqOutcome) (dfields afields : List (String × Json)) (did : Json)
    (nm sid rawC : String) (rest2 : List String)
    (hid : lookupField dfields "id" = some did)
    (hattrs : lookupField dfields "attributes" = some (Json.obj afields))
    (hsel : (select_management_server stdin1).1 = some ((nm, sid), rawC :: rest2))
    (hconfirm : pyLower (pyStrip rawC) ≠ "y") :
    mainPostSearch token serial (Json.obj dfields) stdin1 oracle =
      (.exited 0, [],
        ["Device found:",
         "  ID: " ++ pyStr did,
         "  Model: " ++ pyStr ((lookupField afields "model").getD (.str "Unknown")),
         "  Current Server ID: " ++
           pyStr ((lookupField afields "deviceManagementServerId").getD (.str "Unassigned"))] ++
        (select_management_server stdin1).2 ++
        ["Selected: " ++ nm ++ " (ID: " ++ sid ++ ")",
         confirmPrompt serial nm,
         "Operation cancelled"]) := by
  simp [mainPostSearch, pyGetItem, hid, hattrs, pyGetDefault, hsel, hconfirm]

/-- Claim C3 counterexample: the confirmation input " y" is not equal to
"y" under a purely case-insensitive comparison (its lowercased form is
" y"), yet the run does call the PATCH endpoint, because the code strips
surrounding whitespace before comparing. -/
theorem claim_C3_counterexample :
    pyLower " y" ≠ "y" ∧
    (mainRun (some "KID") (some "ISS") "tok" ["SER1", "1", " y"] demoOracle).calls.any
      ApiCall.isPatch = true := by
  exact ⟨by decide, by decide⟩

/-- Claim C3 (amended): for every confirmation input whose
whitespace-stripped, lowercased form is not "y", the run prints the
cancellation message and exits 0 with only the search call made, never
calling the PATCH endpoint. -/
theorem claim_C3_confirmation_gate (keyId issuerId : Option String) (token raw : String)
    (stdin1 : List String) (oracle : ApiCall → ReqOutcome)
    (dfields afields : List (String × Json)) (did : Json)
    (nm sid rawC : String) (rest2 : List String)
    (hk : pyFalsyOptStr keyId = false) (hi : pyFalsyOptStr issuerId = false)
    (hserial : pyUpper (pyStrip raw) ≠ "")
    (hsearch : (searchHandle (oracle (searchRequest token (pyUpper (pyStrip raw))))).1 =
      Except.ok (some (Json.obj dfields)))
    (hid : lookupField dfields "id" = some did)
    (hattrs : lookupField dfields "attributes" = some (Json.obj afields))
    (hsel : (select_management_server stdin1).1 = some ((nm, sid), rawC :: rest2))
    (hconfirm : pyLower (pyStrip rawC) ≠ "y") :
    (mainRun keyId issuerId token (raw :: stdin1) oracle).result = .exited 0 ∧
    (mainRun keyId issuerId token (raw :: stdin1) oracle).calls =
      [searchRequest token (pyUpper (pyStrip raw))] ∧
    "Operation cancelled" ∈ (mainRun keyId issuerId token (raw :: stdin1) oracle).output := by
  have hne := lookupField_isEmpty_false hid
  have hmain := mainRun_post keyId issuerId token raw stdin1 oracle dfields hk hi hserial
    hsearch hne
  have hpost := mainPostSearch_cancel token (pyUpper (pyStrip raw)) stdin1 oracle dfields
    afields did nm sid rawC rest2 hid hattrs hsel hconfirm
  rw [hmain]
  refine ⟨?_, ?_, ?_⟩
  · simp [hpost]
  · simp [hpost]
  · simp [hpost]

/-- Witness for the amended C3: the confirmation "n" cancels at exit 0
with only the search call. -/
theorem claim_C3_confirmation_gate_witness :
    (mainRun (some "KID") (some "ISS") "tok" ["SER1", "1", "n"] demoOracle).result =
      .exited 0 ∧
    (mainRun (some "KID") (some "ISS") "tok" ["SER1", "1", "n"] demoOracle).calls =
      [searchRequest "tok" "SER1"] ∧
    "Operation cancelled" ∈
      (mainRun (some "KID") (some "ISS") "tok" ["SER1", "1", "n"] demoOracle).output := by
  have h := claim_C3_confirmation_gate (some "KID") (some "ISS") "tok" "SER1" ["1", "n"]
    demoOracle
    [("id", .str "1001"),
     ("attributes", .obj [("model", .str "MacBook"),
                          ("deviceManagementServerId", .str "OLD")])]
    [("model", .str "MacBook"), ("deviceManagementServerId", .str "OLD")]
    (.str "1001") "Mosyle Macs" "UDID_GOES_HERE" "n" []
    rfl rfl (by decide) rfl rfl rfl rfl (by decide)
  exact h

/-- Claim C9: when the assignment PATCH succeeds at the HTTP level but the
parsed body is falsy, the run prints the failure message and exits 1
exactly as for an assignment error; it reports success (exit 0) only for
a truthy parsed body. In both cases the search and the PATCH are the only
calls made. -/
theorem claim_C9_falsy_result (keyId issuerId : Option String) (token raw : String)
    (stdin1 : List String) (oracle : ApiCall → ReqOutcome)
    (dfields afields : List (String × Json)) (did body : Json)
    (nm sid rawC : String) (rest2 : List String) (status : Nat)
    (hk : pyFalsyOptStr keyId = false) (hi : pyFalsyOptStr issuerId = false)
    (hserial : pyUpper (pyStrip raw) ≠ "")
    (hsearch : (searchHandle (oracle (searchRequest token (pyUpper (pyStrip raw))))).1 =
      Except.ok (some (Json.obj dfields)))
    (hid : lookupField dfields "id" = some did)
    (hattrs : lookupField dfields "attributes" = some (Json.obj afields))
    (hsel : (select_management_server stdin1).1 = some ((nm, sid), rawC :: rest2))
    (hconfirm : pyLower (pyStrip rawC) = "y")
    (hpatch : oracle (patchRequest token did sid) = ReqOutcome.response status body)
    (hstatus : status < 400) :
    (pyTruthy body = false →
      (mainRun keyId issuerId token (raw :: stdin1) oracle).result = .exited 1 ∧
      assignFailMsg ∈ (mainRun keyId issuerId token (raw :: stdin1) oracle).output) ∧
    (pyTruthy body = true →
      (mainRun keyId issuerId token (raw :: stdin1) oracle).result = .exited 0) ∧
    (mainRun keyId issuerId token (raw :: stdin1) oracle).calls =
      [searchRequest token (pyUpper (pyStrip raw)), patchRequest token did sid] := by
  have hne := lookupField_isEmpty_false hid
  have hmain := mainRun_post keyId issuerId token raw stdin1 oracle dfields hk hi hserial
    hsearch hne
  rw [hmain]
  rcases hb : pyTruthy body with _ | _
  · refine ⟨fun _ => ⟨?_, ?_⟩, fun hcontra => ?_, ?_⟩
    · simp [mainPostSearch, pyGetItem, hid, hattrs, pyGetDefault, hsel, hconfirm, hpatch,
        assignHandle, Nat.not_le.mpr hstatus, hb]
    · simp [mainPostSearch, pyGetItem, hid, hattrs, pyGetDefault, hsel, hconfirm, hpatch,
        assignHandle, Nat.not_le.mpr hstatus, hb]
    · exact absurd hcontra (by decide)
    · simp [mainPostSearch, pyGetItem, hid, hattrs, pyGetDefault, hsel, hconfirm, hpatch,
        assignHandle, Nat.not_le.mpr hstatus, hb]
  · refine ⟨fun hcontra => ?_, fun _ => ?_, ?_⟩
    · exact absurd hcontra (by decide)
    · simp [mainPostSearch, pyGetItem, hid, hattrs, pyGetDefault, hsel, hconfirm, hpatch,
        assignHandle, Nat.not_le.mpr hstatus, hb]
    · simp [mainPostSearch, pyGetItem, hid, hattrs, pyGetDefault, hsel, hconfirm, hpatch,
        assignHandle, Nat.not_le.mpr hstatus, hb]

/-- Witness for C9: a 200 PATCH response with body `{}` is reported as a
failure at exit 1, while a truthy body is reported as success at exit
0. -/
theorem claim_C9_falsy_result_witness :
    (mainRun (some "KID") (some "ISS") "tok" ["SER1", "1", "y"] demoOracleFalsyPatch).result =
      .exited 1 ∧
    assignFailMsg ∈
      (mainRun (some "KID") (some "ISS") "tok" ["SER1", "1", "y"] demoOracleFalsyPatch).output ∧
    (mainRun (some "KID") (some "ISS") "tok" ["SER1", "1", "y"] demoOracle).result =
      .exited 0 := by
  have h1 := claim_C9_falsy_result (some "KID") (some "ISS") "tok" "SER1" ["1", "y"]
    demoOracleFalsyPatch
    [("id", .str "1001"),
     ("attributes", .obj [("model", .str "MacBook"),
                          ("deviceManagementServerId", .str "OLD")])]
    [("model", .str "MacBook"), ("deviceManagementServerId", .str "OLD")]
    (.str "1001") (.obj []) "Mosyle Macs" "UDID_GOES_HERE" "y" [] 200
    rfl rfl (by decide) rfl rfl rfl rfl (by decide) rfl (by omega)
  have h2 := claim_C9_falsy_result (some "KID") (some "ISS") "tok" "SER1" ["1", "y"]
    demoOracle
    [("id", .str "1001"),
     ("attributes", .obj [("model", .str "MacBook"),
                          ("deviceManagementServerId", .str "OLD")])]
    [("model", .str "MacBook"), ("deviceManagementServerId", .str "OLD")]
    (.str "1001") (.obj [("data", .str "ok")]) "Mosyle Macs" "UDID_GOES_HERE" "y" [] 200
    rfl rfl (by decide) rfl rfl rfl rfl (by decide) rfl (by omega)
  exact ⟨(h1.1 rfl).1, (h1.1 rfl).2, h2.2.1 rfl⟩

/-- Claim C10: after a successful search the controller reads the record's
"id" and "attributes" keys unguarded, so a record lacking either key
crashes with an uncaught `KeyError` rather than a handled exit-1 error,
while missing "model" / "deviceManagementServerId" fields are read with
defaults and the run proceeds safely, printing "Unknown" /
"Unassigned". -/
theorem claim_C10_unguarded_keys (token serial : String) (stdin1 : List String)
    (oracle : ApiCall → ReqOutcome) (dfields afields : List (String × Json))
    (did : Json) (nm sid rawC : String) (rest2 : List String) :
    (lookupField dfields "id" = none →
      mainPostSearch token serial (.obj dfields) stdin1 oracle =
        (.crashed "KeyError: id", [], [])) ∧
    (lookupField dfields "id" = some did →
      lookupField dfields "attributes" = none →
      mainPostSearch token serial (.obj dfields) stdin1 oracle =
        (.crashed "KeyError: attributes", [], [])) ∧
    (lookupField dfields "id" = some did →
      lookupField dfields "attributes" = some (.obj afields) →
      lookupField afields "model" = none →
      lookupField afields "deviceManagementServerId" = none →
      (select_management_server stdin1).1 = some ((nm, sid), rawC :: rest2) →
      pyLower (pyStrip rawC) ≠ "y" →
      (mainPostSearch token serial (.obj dfields) stdin1 oracle).1 = .exited 0 ∧
      "  Model: Unknown" ∈ (mainPostSearch token serial (.obj dfields) stdin1 oracle).2.2 ∧
      "  Current Server ID: Unassigned" ∈
        (mainPostSearch token serial (.obj dfields) stdin1 oracle).2.2) := by
  refine ⟨?_, ?_, ?_⟩
  · intro hid
    simp [mainPostSearch, pyGetItem, hid]
  · intro hid hattrs
    simp [mainPostSearch, pyGetItem, hid, hattrs]
  · intro hid hattrs hmodel hdms hsel hconfirm
    have hpost := mainPostSearch_cancel token serial stdin1 oracle dfields afields did
      nm sid rawC rest2 hid hattrs hsel hconfirm
    rw [hpost]
    refine ⟨rfl, ?_, ?_⟩
    · simp [hmodel, pyStr]
    · simp [hdms, pyStr]

/-- Witness for C10: a record without "id" crashes, one with "id" but
without "attributes" crashes on "attributes", and a record whose
attributes lack "model" and "deviceManagementServerId" proceeds to a
clean cancel showing the defaults. -/
theorem claim_C10_unguarded_keys_witness :
    mainPostSearch "tok" "SER1" (.obj [("serialNumber", .str "SER1")]) ["1", "n"] demoOracle =
      (.crashed "KeyError: id", [], []) ∧
    mainPostSearch "tok" "SER1" (.obj [("id", .str "1001")]) ["1", "n"] demoOracle =
      (.crashed "KeyError: attributes", [], []) ∧
    (mainPostSearch "tok" "SER1"
      (.obj [("id", .str "1001"), ("attributes", .obj [("color", .str "blue")])])
      ["1", "n"] demoOracle).1 = .exited 0 ∧
    "  Model: Unknown" ∈ (mainPostSearch "tok" "SER1"
      (.obj [("id", .str "1001"), ("attributes", .obj [("color", .str "blue")])])
      ["1", "n"] demoOracle).2.2 := by
  have h1 := (claim_C10_unguarded_keys "tok" "SER1" ["1", "n"] demoOracle
    [("serialNumber", .str "SER1")] [] Json.null "" "" "" []).1 rfl
  have h2 := (claim_C10_unguarded_keys "tok" "SER1" ["1", "n"] demoOracle
    [("id", .str "1001")] [] (.str "1001") "" "" "" []).2.1 rfl rfl
  have h3 := (claim_C10_unguarded_keys "tok" "SER1" ["1", "n"] demoOracle
    [("id", .str "1001"), ("attributes", .obj [("color", .str "blue")])]
    [("color", .str "blue")] (.str "1001") "Mosyle Macs" "UDID_GOES_HERE" "n" []).2.2
    rfl rfl rfl rfl rfl (by decide)
  exact ⟨h1, h2, h3.1, h3.2.1⟩
